import Mathlib

/-!
Shallow embedding of the coaching-institute backend (Express/Mongoose CRUD
service): batches owned by teachers, enrolled students, and the batch-scoped
record stores (announcements, timetable, test results, fee payments) plus the
standalone attendance collection.

Conventions of the embedding:
* MongoDB ObjectIds are modelled as natural numbers (`MId`); the
  `mongoose.Types.ObjectId.isValid` guards of the source are vacuous here
  because every `MId` is a well-formed id.
* Each HTTP handler becomes a pure function from the database state and the
  request data to a pair of HTTP status code and new database state (reads
  return a payload instead of a state).  The `Authorization` header is passed
  to every handler as `Option MId` — `some t` is a request whose bearer value
  resolves to identity `t`, `none` is a request with no (or a malformed)
  header.  Handlers that never read the header ignore the argument, exactly
  as the corresponding route does.
* JavaScript numbers are modelled as exact rationals (`ℚ`), dates as integer
  timestamps, and generated ObjectIds / `new Date()` values are taken as
  explicit arguments (`newId`, `now`).
* JavaScript falsy checks on strings (`if (!s)`) are modelled as comparison
  with `""`; absent optional body fields are `Option.none`.
* `Array.prototype.sort` (stable since ES2019) is modelled by the stable
  `List.insertionSort`; `findIndex` followed by an in-place write or a
  `splice` is modelled by the recursive helpers `updateFirst` / `removeFirst`.
-/

namespace Clr

/-- MongoDB ObjectId, modelled as a natural number. -/
abbrev MId := Nat

/-- User document (`models/user`): students and parents.  A parent links to a
student through the student's `parentEmail` back-reference. -/
structure User where
  id : MId
  name : String
  email : String
  role : String
  parentEmail : Option String
deriving DecidableEq

/-- Announcement subdocument embedded in a batch. -/
structure Announcement where
  id : MId
  title : String
  content : String
  teacher_id : MId
  createdAt : Int
deriving DecidableEq

/-- Fee payment subdocument embedded in a batch (one per student). -/
structure FeePayment where
  student : MId
  amount : ℚ
  paymentDate : Int
  paymentMethod : String
  status : String
  remarks : String
deriving DecidableEq

/-- Timetable entry subdocument (one slot of a day's schedule). -/
structure TTEntry where
  hour : Int
  subject : String
  teacher : Option String
  startTime : Option String
  endTime : Option String
deriving DecidableEq

/-- Per-student mark row inside a test result. -/
structure StudentMark where
  student : MId
  marks : ℚ
  remarks : String
deriving DecidableEq

/-- Test result subdocument embedded in a batch. -/
structure TestResult where
  id : MId
  examName : String
  date : Int
  maximumMarks : ℚ
  subject : String
  createdBy : MId
  studentMarks : List StudentMark
deriving DecidableEq

/-- The six timetable days of the batch schema. -/
inductive Day
  | monday | tuesday | wednesday | thursday | friday | saturday
deriving DecidableEq

/-- The timetable object of the batch schema: one entry list per day. -/
structure Timetable where
  monday : List TTEntry
  tuesday : List TTEntry
  wednesday : List TTEntry
  thursday : List TTEntry
  friday : List TTEntry
  saturday : List TTEntry
deriving DecidableEq

/-- The empty timetable every handler initialises missing timetables to. -/
def Timetable.empty : Timetable := ⟨[], [], [], [], [], []⟩

/-- Read one day's entry list (`batch.timetable[day]`). -/
def Timetable.get (t : Timetable) : Day → List TTEntry
  | .monday => t.monday
  | .tuesday => t.tuesday
  | .wednesday => t.wednesday
  | .thursday => t.thursday
  | .friday => t.friday
  | .saturday => t.saturday

/-- Write one day's entry list (`batch.timetable[day] = l`). -/
def Timetable.set (t : Timetable) (d : Day) (l : List TTEntry) : Timetable :=
  match d with
  | .monday => { t with monday := l }
  | .tuesday => { t with tuesday := l }
  | .wednesday => { t with wednesday := l }
  | .thursday => { t with thursday := l }
  | .friday => { t with friday := l }
  | .saturday => { t with saturday := l }

/-- Batch document (`Models/batch.js`).  The source field `class` is a Lean
keyword and is rendered here as `klass`. -/
structure Batch where
  id : MId
  batch_code : String
  name : String
  klass : String
  teacher_id : MId
  students : List MId
  feesPayments : List FeePayment
  announcements : List Announcement
  timetable : Timetable
  testResults : List TestResult
  createdAt : Int
deriving DecidableEq

/-- One per-student row of an attendance record. -/
structure AttendanceEntry where
  student_id : MId
  status : String
  remarks : Option String
deriving DecidableEq

/-- Attendance document (`models/attendance`): standalone collection keyed by
batch and date. -/
structure AttendanceRecord where
  id : MId
  batch_id : MId
  date : Int
  records : List AttendanceEntry
  marked_by : MId
deriving DecidableEq

/-- The persistent state: the four MongoDB collections the handlers touch.
Admin (teacher) accounts are reduced to their ids — the handlers only ever
test existence of an `AdminUser`. -/
structure DB where
  adminUsers : List MId
  users : List User
  batches : List Batch
  attendances : List AttendanceRecord
deriving DecidableEq

/-- The `User.findById` query. -/
def findUser (db : DB) (uid : MId) : Option User :=
  db.users.find? fun u => decide (u.id = uid)

/-- The `Batch.findById` query. -/
def findBatch (db : DB) (bid : MId) : Option Batch :=
  db.batches.find? fun b => decide (b.id = bid)

/-- The `Attendance.findById` query. -/
def findAttendance (db : DB) (aid : MId) : Option AttendanceRecord :=
  db.attendances.find? fun a => decide (a.id = aid)

/-- Persisting a mutated batch document (`batch.save()`): the document with
this id is replaced. -/
def saveBatch (db : DB) (bid : MId) (b : Batch) : DB :=
  { db with batches := db.batches.map fun x => if x.id = bid then b else x }

/-- Persisting a mutated attendance document (`attendance.save()`). -/
def saveAttendance (db : DB) (aid : MId) (a : AttendanceRecord) : DB :=
  { db with attendances := db.attendances.map fun x => if x.id = aid then a else x }

/-- The `AdminUser.findById` existence test. -/
def isAdmin (db : DB) (tid : MId) : Bool := decide (tid ∈ db.adminUsers)

/-- JavaScript `String.prototype.toUpperCase`, character by character. -/
def jsUpper (s : String) : String := ⟨s.data.map Char.toUpper⟩

/-- JavaScript `String.prototype.toLowerCase`, character by character. -/
def jsLower (s : String) : String := ⟨s.data.map Char.toLower⟩

/-- The `validDays.includes(day.toLowerCase())` check of the timetable
routes, returning the recognised day. -/
def parseDay : String → Option Day
  | "monday" => some .monday
  | "tuesday" => some .tuesday
  | "wednesday" => some .wednesday
  | "thursday" => some .thursday
  | "friday" => some .friday
  | "saturday" => some .saturday
  | _ => none

/-- JavaScript `l.findIndex(p)` followed by an in-place overwrite of the found
element with `f` applied to it; `none` when `findIndex` returns `-1`. -/
def updateFirst {α : Type} (p : α → Bool) (f : α → α) : List α → Option (List α)
  | [] => none
  | x :: xs => if p x then some (f x :: xs) else (updateFirst p f xs).map (x :: ·)

/-- JavaScript `l.findIndex(p)` followed by `l.splice(idx, 1)`; `none` when
`findIndex` returns `-1`. -/
def removeFirst {α : Type} (p : α → Bool) : List α → Option (List α)
  | [] => none
  | x :: xs => if p x then some xs else (removeFirst p xs).map (x :: ·)

/-! Mutating handlers of `routes/admin.js`. -/

/-- `POST /batches` (routes/admin.js:186): create a batch.  A zod failure on
an empty field is caught by the catch-all and surfaces as 500. -/
def createBatch (db : DB) (batch_code name klass : String) (teacher_id : MId)
    (newId : MId) (now : Int) : Nat × DB :=
  if batch_code = "" ∨ name = "" ∨ klass = "" then (500, db)
  else if isAdmin db teacher_id then
    match db.batches.find? (fun b => decide (b.batch_code = jsUpper batch_code)) with
    | some _ => (409, db)
    | none =>
      (201, { db with batches := db.batches ++
        [⟨newId, jsUpper batch_code, name, klass, teacher_id, [], [], [],
          Timetable.empty, [], now⟩] })
  else (404, db)

/-- `PUT /batches/:batchId` (routes/admin.js:237): update name/class; the
bearer value is looked up as an `AdminUser` id. -/
def updateBatch (db : DB) (auth : Option MId) (bid : MId)
    (name? klass? : Option String) : Nat × DB :=
  match auth with
  | none => (401, db)
  | some teacherId =>
    if isAdmin db teacherId then
      match findBatch db bid with
      | none => (404, db)
      | some batch =>
        if batch.teacher_id ≠ teacherId then (403, db)
        else (200, saveBatch db bid
          { batch with name := name?.getD batch.name, klass := klass?.getD batch.klass })
    else (401, db)

/-- `DELETE /batches/:batchId` (routes/admin.js:303): the bearer value is used
directly as the teacher id, with no `AdminUser` lookup. -/
def deleteBatch (db : DB) (auth : Option MId) (bid : MId) : Nat × DB :=
  match auth with
  | none => (401, db)
  | some teacherId =>
    match findBatch db bid with
    | none => (404, db)
    | some batch =>
      if batch.teacher_id ≠ teacherId then (403, db)
      else (200, { db with batches := db.batches.filter fun x => decide (x.id ≠ bid) })

/-- `POST /batches/:batchId/students` (routes/admin.js:354): bulk-add
students.  The route reads no authorization data at all; the `auth` argument
is ignored exactly as the source ignores the header. -/
def addStudents (db : DB) (auth : Option MId) (bid : MId)
    (studentIds : List MId) : Nat × DB :=
  if studentIds.isEmpty then (400, db)
  else
    match findBatch db bid with
    | none => (404, db)
    | some batch =>
      let matched := db.users.filter fun u =>
        decide (u.id ∈ studentIds) && decide (u.role = "student")
      if matched.length ≠ studentIds.length then (400, db)
      else
        let newStudentIds := studentIds.filter fun i => decide (i ∉ batch.students)
        (200, saveBatch db bid { batch with students := batch.students ++ newStudentIds })

/-- `DELETE /batches/:batchId/students/:studentId` (routes/admin.js:412). -/
def removeStudent (db : DB) (auth : Option MId) (bid sid : MId) : Nat × DB :=
  match auth with
  | none => (401, db)
  | some teacherId =>
    if isAdmin db teacherId then
      match findBatch db bid with
      | none => (404, db)
      | some batch =>
        if batch.teacher_id ≠ teacherId then (403, db)
        else if sid ∉ batch.students then (404, db)
        else (200, saveBatch db bid
          { batch with students := batch.students.filter fun i => decide (i ≠ sid) })
    else (401, db)

/-- `POST /join-batch` of the user router (src/unnamed/part_000:351): a
student joins a batch by code.  `auth = some uid` is a verified token whose
`userId` claim is `uid`; a missing header is rejected with 400. -/
def joinBatch (db : DB) (auth : Option MId) (batch_code : String) : Nat × DB :=
  if batch_code = "" then (400, db)
  else match auth with
  | none => (400, db)
  | some uid =>
    match findUser db uid with
    | none => (403, db)
    | some student =>
      if student.role ≠ "student" then (403, db)
      else match db.batches.find? (fun b => decide (b.batch_code = jsUpper batch_code)) with
        | none => (404, db)
        | some batch =>
          if student.id ∈ batch.students then (409, db)
          else (200, saveBatch db batch.id
            { batch with students := batch.students ++ [student.id] })

/-- `POST /batches/:batchId/announcements` (routes/admin.js:576): prepend a
new announcement. -/
def createAnnouncement (db : DB) (auth : Option MId) (bid : MId)
    (title content : String) (now : Int) (annId : MId) : Nat × DB :=
  match auth with
  | none => (401, db)
  | some teacherId =>
    if isAdmin db teacherId then
      match findBatch db bid with
      | none => (404, db)
      | some batch =>
        if batch.teacher_id ≠ teacherId then (403, db)
        else (201, saveBatch db bid
          { batch with announcements := ⟨annId, title, content, teacherId, now⟩ :: batch.announcements })
    else (401, db)

/-- `PUT /batches/:batchId/announcements/:announcementId`
(routes/admin.js:680): partial update of title/content.  (The source also
writes an `updatedAt` property the announcement schema does not declare;
mongoose drops it on save, so it is not modelled.) -/
def updateAnnouncement (db : DB) (auth : Option MId) (bid annId : MId)
    (title? content? : Option String) : Nat × DB :=
  match auth with
  | none => (401, db)
  | some teacherId =>
    if isAdmin db teacherId then
      match findBatch db bid with
      | none => (404, db)
      | some batch =>
        if batch.teacher_id ≠ teacherId then (403, db)
        else
          match updateFirst (fun a => decide (a.id = annId))
              (fun a => { a with title := title?.getD a.title,
                                 content := content?.getD a.content })
              batch.announcements with
          | none => (404, db)
          | some l => (200, saveBatch db bid { batch with announcements := l })
    else (401, db)

/-- `DELETE /batches/:batchId/announcements/:announcementId`
(routes/admin.js:759). -/
def deleteAnnouncement (db : DB) (auth : Option MId) (bid annId : MId) : Nat × DB :=
  match auth with
  | none => (401, db)
  | some teacherId =>
    if isAdmin db teacherId then
      match findBatch db bid with
      | none => (404, db)
      | some batch =>
        if batch.teacher_id ≠ teacherId then (403, db)
        else
          match removeFirst (fun a => decide (a.id = annId)) batch.announcements with
          | none => (404, db)
          | some l => (200, saveBatch db bid { batch with announcements := l })
    else (401, db)

/-- `POST /batches/:batchId/attendance` (routes/admin.js:828): mark
attendance.  No batch lookup or ownership check exists on this route; the
only gate is the duplicate check on `(batch_id, date)`. -/
def markAttendance (db : DB) (auth : Option MId) (bid : MId) (date : Int)
    (records : List AttendanceEntry) (attId : MId) : Nat × DB :=
  match auth with
  | none => (401, db)
  | some teacherId =>
    if isAdmin db teacherId then
      match db.attendances.find? (fun a => decide (a.batch_id = bid) && decide (a.date = date)) with
      | some _ => (400, db)
      | none =>
        (201, { db with attendances :=
          db.attendances ++ [⟨attId, bid, date, records, teacherId⟩] })
    else (401, db)

/-- `PUT /batches/:batchId/attendance/:attendanceId` (routes/admin.js:1010):
replace the records list wholesale. -/
def updateAttendance (db : DB) (auth : Option MId) (bid attId : MId)
    (records : List AttendanceEntry) : Nat × DB :=
  match auth with
  | none => (401, db)
  | some teacherId =>
    if isAdmin db teacherId then
      match findBatch db bid with
      | none => (404, db)
      | some batch =>
        if batch.teacher_id ≠ teacherId then (403, db)
        else match findAttendance db attId with
          | none => (404, db)
          | some att =>
            if att.batch_id ≠ bid then (400, db)
            else (200, saveAttendance db attId { att with records := records })
    else (401, db)

/-- `DELETE /batches/:batchId/attendance/:attendanceId`
(routes/admin.js:1094). -/
def deleteAttendance (db : DB) (auth : Option MId) (bid attId : MId) : Nat × DB :=
  match auth with
  | none => (401, db)
  | some teacherId =>
    if isAdmin db teacherId then
      match findBatch db bid with
      | none => (404, db)
      | some batch =>
        if batch.teacher_id ≠ teacherId then (403, db)
        else match findAttendance db attId with
          | none => (404, db)
          | some att =>
            if att.batch_id ≠ bid then (400, db)
            else (200, { db with attendances :=
              db.attendances.filter fun x => decide (x.id ≠ attId) })
    else (401, db)

/-- The per-entry validation of `POST /batches/:batchId/timetable`
(routes/admin.js:1191-1205): reject a falsy hour or subject, then an hour
outside `[1, 8]`. -/
def validTTEntry (e : TTEntry) : Bool :=
  !(decide (e.hour = 0) || decide (e.subject = "")) &&
  !(decide (e.hour < 1) || decide (e.hour > 8))

/-- `POST /batches/:batchId/timetable` (routes/admin.js:1168): replace one
day's list wholesale.  The route reads no authorization data at all; the
`auth` argument is ignored exactly as the source ignores the header. -/
def setDayTimetable (db : DB) (auth : Option MId) (bid : MId) (day : String)
    (timetableEntries : List TTEntry) : Nat × DB :=
  match parseDay (jsLower day) with
  | none => (400, db)
  | some d =>
    if timetableEntries.all validTTEntry then
      match findBatch db bid with
      | none => (404, db)
      | some batch =>
        (200, saveBatch db bid
          { batch with timetable := batch.timetable.set d timetableEntries })
    else (400, db)

/-- The relation `Array.prototype.sort((a, b) => a.hour - b.hour)` sorts by. -/
def byHour (a b : TTEntry) : Prop := a.hour ≤ b.hour

instance : DecidableRel byHour := fun a b => Int.decLe a.hour b.hour

instance : IsTotal TTEntry byHour := ⟨fun a b => Int.le_total a.hour b.hour⟩

instance : IsTrans TTEntry byHour := ⟨fun _ _ _ h h' => le_trans h h'⟩

/-- The slot update of `PUT .../timetable/:day/:hour`
(routes/admin.js:1461-1492): overwrite the first entry with the requested
hour (subject always, the other fields only when provided), or push a new
entry at the end. -/
def ttUpsertList (l : List TTEntry) (hourNum : Int) (subject : String)
    (teacher? startTime? endTime? : Option String) : List TTEntry :=
  match updateFirst (fun e => decide (e.hour = hourNum))
      (fun e => { e with
        subject := subject,
        teacher := (teacher?.map some).getD e.teacher,
        startTime := (startTime?.map some).getD e.startTime,
        endTime := (endTime?.map some).getD e.endTime }) l with
  | some l' => l'
  | none => l ++ [⟨hourNum, subject, teacher?, startTime?, endTime?⟩]

/-- `PUT /batches/:batchId/timetable/:day/:hour` (routes/admin.js:1384):
upsert one slot, then keep the day sorted by hour.  The hour is only checked
to be at least 1 (routes/admin.js:1425). -/
def upsertTimetableEntry (db : DB) (auth : Option MId) (bid : MId)
    (day : String) (hourNum : Int) (subject : String)
    (teacher? startTime? endTime? : Option String) : Nat × DB :=
  match auth with
  | none => (401, db)
  | some teacherId =>
    if isAdmin db teacherId then
      if subject = "" then (400, db)
      else match parseDay (jsLower day) with
      | none => (400, db)
      | some d =>
        if hourNum < 1 then (400, db)
        else match findBatch db bid with
        | none => (404, db)
        | some batch =>
          if batch.teacher_id ≠ teacherId then (403, db)
          else
            let sorted := List.insertionSort byHour
              (ttUpsertList (batch.timetable.get d) hourNum subject
                teacher? startTime? endTime?)
            (200, saveBatch db bid { batch with timetable := batch.timetable.set d sorted })
    else (401, db)

/-- `DELETE /batches/:batchId/timetable/:day/:hour` (routes/admin.js:1286):
remove one slot; this route does check the hour against both bounds. -/
def deleteTimetableEntry (db : DB) (auth : Option MId) (bid : MId)
    (day : String) (hourNum : Int) : Nat × DB :=
  match auth with
  | none => (401, db)
  | some teacherId =>
    if isAdmin db teacherId then
      match parseDay (jsLower day) with
      | none => (400, db)
      | some d =>
        if hourNum < 1 ∨ hourNum > 8 then (400, db)
        else match findBatch db bid with
        | none => (404, db)
        | some batch =>
          if batch.teacher_id ≠ teacherId then (403, db)
          else
            match removeFirst (fun e => decide (e.hour = hourNum)) (batch.timetable.get d) with
            | none => (404, db)
            | some l => (200, saveBatch db bid
                { batch with timetable := batch.timetable.set d l })
    else (401, db)

/-- `DELETE /batches/:batchId/timetable/:day` (routes/admin.js:1516): clear a
whole day. -/
def clearDayTimetable (db : DB) (auth : Option MId) (bid : MId)
    (day : String) : Nat × DB :=
  match auth with
  | none => (401, db)
  | some teacherId =>
    if isAdmin db teacherId then
      match parseDay (jsLower day) with
      | none => (400, db)
      | some d =>
        match findBatch db bid with
        | none => (404, db)
        | some batch =>
          if batch.teacher_id ≠ teacherId then (403, db)
          else (200, saveBatch db bid { batch with timetable := batch.timetable.set d [] })
    else (401, db)

/-- `POST /batches/:batchId/tests` (routes/admin.js:1598): the bearer value is
used directly as the teacher id, with no `AdminUser` lookup. -/
def createTest (db : DB) (auth : Option MId) (bid : MId) (examName : String)
    (maximumMarks : ℚ) (subject : String) (now : Int) (testId : MId) : Nat × DB :=
  match auth with
  | none => (401, db)
  | some teacherId =>
    match findBatch db bid with
    | none => (404, db)
    | some batch =>
      if batch.teacher_id ≠ teacherId then (403, db)
      else (201, saveBatch db bid { batch with testResults :=
        batch.testResults ++ [⟨testId, examName, now, maximumMarks, subject, teacherId, []⟩] })

/-- One mark row of the `PUT .../tests/:testId` request body. -/
structure MarkInput where
  student : MId
  marks : ℚ
  remarks : Option String
deriving DecidableEq

/-- One iteration of the mark-upsert loop of `PUT .../tests/:testId`
(routes/admin.js:1833-1852): update the existing row for the student (its
remarks only when truthy), else append a new row with `remarks || ''`. -/
def applyMark (sm : List StudentMark) (m : MarkInput) : List StudentMark :=
  match updateFirst (fun x => decide (x.student = m.student))
      (fun x => { x with
        marks := m.marks,
        remarks := match m.remarks with
          | some r => if r = "" then x.remarks else r
          | none => x.remarks })
      sm with
  | some l => l
  | none => sm ++ [⟨m.student, m.marks, m.remarks.getD ""⟩]

/-- `PUT /batches/:batchId/tests/:testId` (routes/admin.js:1783): partial
update of the test plus the per-student mark upsert loop; the bearer value is
used directly as the teacher id. -/
def updateTest (db : DB) (auth : Option MId) (bid testId : MId)
    (examName? : Option String) (maximumMarks? : Option ℚ)
    (subject? : Option String) (studentMarks : List MarkInput) : Nat × DB :=
  match auth with
  | none => (401, db)
  | some teacherId =>
    match findBatch db bid with
    | none => (404, db)
    | some batch =>
      if batch.teacher_id ≠ teacherId then (403, db)
      else
        match updateFirst (fun t => decide (t.id = testId))
            (fun t => { t with
              examName := examName?.getD t.examName,
              maximumMarks := maximumMarks?.getD t.maximumMarks,
              subject := subject?.getD t.subject,
              studentMarks := studentMarks.foldl applyMark t.studentMarks })
            batch.testResults with
        | none => (404, db)
        | some ts => (200, saveBatch db bid { batch with testResults := ts })

/-- `DELETE /batches/:batchId/tests/:testId` (routes/admin.js:1880): the
bearer value is used directly as the teacher id. -/
def deleteTest (db : DB) (auth : Option MId) (bid testId : MId) : Nat × DB :=
  match auth with
  | none => (401, db)
  | some teacherId =>
    match findBatch db bid with
    | none => (404, db)
    | some batch =>
      if batch.teacher_id ≠ teacherId then (403, db)
      else
        match removeFirst (fun t => decide (t.id = testId)) batch.testResults with
        | none => (404, db)
        | some ts => (200, saveBatch db bid { batch with testResults := ts })

/-- The fee upsert of `POST .../fees` (routes/admin.js:2040-2063): overwrite
the student's existing record wholesale (every field of the new payment data
is written), or push a new record at the end. -/
def feeUpsertList (l : List FeePayment) (sid : MId) (pd : FeePayment) : List FeePayment :=
  match updateFirst (fun p => decide (p.student = sid)) (fun _ => pd) l with
  | some l' => l'
  | none => l ++ [pd]

/-- `POST /batches/:batchId/fees` (routes/admin.js:1980): upsert the single
fee record of an enrolled student.  The route reads no authorization data;
the `auth` argument is ignored exactly as the source ignores the header. -/
def upsertFee (db : DB) (auth : Option MId) (bid sid : MId) (amount : ℚ)
    (paymentMethod status : String) (remarks? : Option String) (now : Int) : Nat × DB :=
  if amount ≤ 0 then (400, db)
  else if paymentMethod ≠ "online" ∧ paymentMethod ≠ "offline" then (400, db)
  else if status ≠ "paid" ∧ status ≠ "pending" ∧ status ≠ "overdue" then (400, db)
  else match findBatch db bid with
  | none => (404, db)
  | some batch =>
    if sid ∉ batch.students then (404, db)
    else
      let fees := feeUpsertList batch.feesPayments sid
        ⟨sid, amount, now, paymentMethod, status, remarks?.getD ""⟩
      (200, saveBatch db bid { batch with feesPayments := fees })

/-! Read handlers and the derived attendance statistics. -/

/-- One formatted row of an attendance query response.  `marked_by` is only
included by the student/parent routes; the admin route omits it. -/
structure FormattedAttendance where
  date : Int
  status : String
  remarks : String
  marked_by : Option MId
deriving DecidableEq

/-- Rounding to two decimal places: `Math.round(x * 100) / 100`.  JavaScript
`Math.round` rounds half toward positive infinity, which is exactly
Mathlib's `round`. -/
def round2 (x : ℚ) : ℚ := (round (x * 100) : ℚ) / 100

/-- The statistics block every attendance query derives
(routes/admin.js:980-995 and the student/parent routes): total, present,
absent, and the rounded percentage (0 when there are no classes). -/
def attendanceStatistics (recs : List FormattedAttendance) : ℕ × ℕ × ℕ × ℚ :=
  let totalClasses := recs.length
  let present := (recs.filter fun r => decide (r.status = "present")).length
  let absent := totalClasses - present
  let pct : ℚ := if totalClasses > 0 then ((present : ℚ) / (totalClasses : ℚ)) * 100 else 0
  (totalClasses, present, absent, round2 pct)

/-- The formatting step `record.records.find(r => r.student_id === sid)`
mapped to `{date, status, remarks || ''}` (plus `marked_by` when the route
includes it); `none` when the student has no row in the record. -/
def formatRecordFor (sid : MId) (withMarker : Bool) (a : AttendanceRecord) :
    Option FormattedAttendance :=
  (a.records.find? fun r => decide (r.student_id = sid)).map fun r =>
    ⟨a.date, r.status, r.remarks.getD "", if withMarker then some a.marked_by else none⟩

/-- The optional `{date: {$gte, $lte}}` clause, applied only when both
`startDate` and `endDate` query parameters are present. -/
def inRange (range? : Option (Int × Int)) (d : Int) : Bool :=
  match range? with
  | none => true
  | some (s, e) => decide (s ≤ d) && decide (d ≤ e)

/-- The `.sort({date: -1})` of the attendance queries. -/
def byDateDesc (a b : AttendanceRecord) : Prop := b.date ≤ a.date

instance : DecidableRel byDateDesc := fun a b => Int.decLe b.date a.date

/-- `GET /batches/:batchId/student-attendance/:studentId`
(routes/admin.js:928): per-student attendance with statistics, for a caller
whose bearer value resolves to an `AdminUser`. -/
def getAdminStudentAttendance (db : DB) (auth : Option MId) (bid sid : MId)
    (range? : Option (Int × Int)) :
    Nat × Option (List FormattedAttendance × (ℕ × ℕ × ℕ × ℚ)) :=
  match auth with
  | none => (401, none)
  | some teacherId =>
    if isAdmin db teacherId then
      let recs := List.insertionSort byDateDesc (db.attendances.filter fun a =>
        decide (a.batch_id = bid) && a.records.any (fun r => decide (r.student_id = sid)) &&
        inRange range? a.date)
      let formatted := recs.filterMap (formatRecordFor sid false)
      (200, some (formatted, attendanceStatistics formatted))
    else (401, none)

/-- `GET /student/batches/:batchId/attendance` (src/unnamed/part_000:724):
the decoded token is never compared with the `userId` query parameter; all of
the batch's records are fetched and rows for `userId` extracted. -/
def getStudentAttendance (db : DB) (auth : Option MId) (bid userId : MId)
    (range? : Option (Int × Int)) :
    Nat × Option (List FormattedAttendance × (ℕ × ℕ × ℕ × ℚ)) :=
  match auth with
  | none => (401, none)
  | some _ =>
    let recs := List.insertionSort byDateDesc (db.attendances.filter fun a =>
      decide (a.batch_id = bid) && inRange range? a.date)
    let formatted := recs.filterMap (formatRecordFor userId true)
    (200, some (formatted, attendanceStatistics formatted))

/-- `GET /parent/batches/:batchId/student-attendance/:studentId`
(src/unnamed/part_000:804): the parent-linkage check is
`student.parentEmail === parent.email`; no enrollment check exists on this
route. -/
def getParentStudentAttendance (db : DB) (auth : Option MId) (bid sid : MId)
    (range? : Option (Int × Int)) :
    Nat × Option (List FormattedAttendance × (ℕ × ℕ × ℕ × ℚ)) :=
  match auth with
  | none => (401, none)
  | some pid =>
    match findUser db pid with
    | none => (403, none)
    | some parent =>
      if parent.role ≠ "parent" then (403, none)
      else match findUser db sid with
      | none => (403, none)
      | some student =>
        if student.parentEmail ≠ some parent.email then (403, none)
        else
          let recs := List.insertionSort byDateDesc (db.attendances.filter fun a =>
            decide (a.batch_id = bid) && a.records.any (fun r => decide (r.student_id = sid)) &&
            inRange range? a.date)
          let formatted := recs.filterMap (formatRecordFor sid true)
          (200, some (formatted, attendanceStatistics formatted))

/-- `GET /parent/batches/:batchId/tests` (src/unnamed/part_000:1067):
parent-linkage then enrollment, returning the batch's tests. -/
def getParentTests (db : DB) (auth : Option MId) (bid : MId)
    (studentId? : Option MId) : Nat × Option (List TestResult) :=
  match auth with
  | none => (401, none)
  | some pid =>
    match studentId? with
    | none => (400, none)
    | some sid =>
      match findUser db pid with
      | none => (401, none)
      | some parent =>
        match findUser db sid with
        | none => (404, none)
        | some student =>
          if student.parentEmail ≠ some parent.email then (403, none)
          else match findBatch db bid with
          | none => (404, none)
          | some batch =>
            if sid ∉ batch.students then (403, none)
            else (200, some batch.testResults)

/-- `GET /parent/batches/:batchId/fees` (src/unnamed/part_000:1282): the
parent identity comes from the `parentId` query parameter (no token is
read); parent-linkage then enrollment, returning the student's single fee
record (or none). -/
def getParentFees (db : DB) (auth : Option MId) (bid : MId)
    (parentId? studentId? : Option MId) : Nat × Option (Option FeePayment) :=
  match studentId? with
  | none => (400, none)
  | some sid =>
    match parentId?.bind (findUser db) with
    | none => (403, none)
    | some parent =>
      if parent.role ≠ "parent" then (403, none)
      else match findUser db sid with
      | none => (403, none)
      | some student =>
        if student.parentEmail ≠ some parent.email then (403, none)
        else match findBatch db bid with
        | none => (404, none)
        | some batch =>
          if sid ∉ batch.students then (403, none)
          else (200, some (batch.feesPayments.find? fun p => decide (p.student = sid)))

/-- The response shape of `GET /batches/:batchId` (routes/admin.js:531-543). -/
structure BatchView where
  id : MId
  name : String
  batch_code : String
  klass : String
  teacher_id : MId
  students : List MId
  createdAt : Int
  announcements : List Announcement
  timetable : Timetable
deriving DecidableEq

/-- `GET /batches/:batchId` (routes/admin.js:514): no authentication or
authorization of any kind; the `auth` argument is ignored exactly as the
source ignores the header. -/
def getBatchDetails (db : DB) (auth : Option MId) (bid : MId) : Nat × Option BatchView :=
  match findBatch db bid with
  | none => (404, none)
  | some b => (200, some ⟨b.id, b.name, b.batch_code, b.klass, b.teacher_id,
      b.students, b.createdAt, b.announcements, b.timetable⟩)

/-- `GET /batches/:batchId/announcements` (routes/admin.js:652): no
authentication or authorization of any kind. -/
def getAnnouncements (db : DB) (auth : Option MId) (bid : MId) :
    Nat × Option (List Announcement) :=
  match findBatch db bid with
  | none => (404, none)
  | some b => (200, some b.announcements)

/-- `GET /batches/:batchId/timetable` (routes/admin.js:1250): no
authentication or authorization of any kind. -/
def getTimetable (db : DB) (auth : Option MId) (bid : MId) : Nat × Option Timetable :=
  match findBatch db bid with
  | none => (404, none)
  | some b => (200, some b.timetable)

/-- `GET /batches/:batchId/fees` (routes/admin.js:1943): no authentication or
authorization of any kind; returns the whole fee list of the batch. -/
def getFees (db : DB) (auth : Option MId) (bid : MId) : Nat × Option (List FeePayment) :=
  match findBatch db bid with
  | none => (404, none)
  | some b => (200, some b.feesPayments)

/-! Derived predicates and the spec-side definitions used for comparison. -/

/-- The attendance percentage as the specification words it:
`round2(present/totalClasses*100)`, defined as 0 when `totalClasses = 0`. -/
def specAttendancePercentage (present total : ℕ) : ℚ :=
  if total = 0 then 0 else round2 ((present : ℚ) / (total : ℚ) * 100)

/-- The (batch_id, date) uniqueness invariant of the attendance collection:
no two records share both batch and date. -/
def attendanceUnique (l : List AttendanceRecord) : Prop :=
  l.Pairwise fun a b => a.batch_id ≠ b.batch_id ∨ a.date ≠ b.date

/-- Id `i` resolves to an account with role `student`. -/
def isStudentAccount (db : DB) (i : MId) : Prop :=
  ∃ u ∈ db.users, u.id = i ∧ u.role = "student"

instance (db : DB) (i : MId) : Decidable (isStudentAccount db i) :=
  List.decidableBEx _ db.users

/-! Concrete sample state used by witnesses and counterexamples. -/

/-- Sample student, linked to the parent with email `p@x`. -/
def exStudent : User := ⟨10, "stu", "s@x", "student", some "p@x"⟩

/-- Sample student with no linked parent. -/
def exStudent2 : User := ⟨11, "stu2", "s2@x", "student", none⟩

/-- Sample parent with email `p@x` (linked to `exStudent`). -/
def exParent : User := ⟨20, "par", "p@x", "parent", none⟩

/-- Sample parent with email `q@x` (linked to no student). -/
def exParent2 : User := ⟨21, "par2", "q@x", "parent", none⟩

/-- Sample batch owned by teacher 1, with student 10 enrolled. -/
def exBatch : Batch := ⟨5, "ABC", "b1", "10th", 1, [10], [], [], Timetable.empty, [], 0⟩

/-- Second sample batch owned by teacher 1, with no students. -/
def exBatch2 : Batch := ⟨6, "DEF", "b2", "12th", 1, [], [], [], Timetable.empty, [], 0⟩

/-- Sample attendance record of batch 5 on date 100. -/
def exAttendance : AttendanceRecord := ⟨7, 5, 100, [⟨10, "present", none⟩], 1⟩

/-- Sample database: admins 1 and 2, the four users, two batches, one
attendance record. -/
def exDB : DB :=
  ⟨[1, 2], [exStudent, exStudent2, exParent, exParent2], [exBatch, exBatch2], [exAttendance]⟩

/-- Sample timetable entry at hour 3. -/
def exTTEntry : TTEntry := ⟨3, "math", none, none, none⟩

/-! General lemmas about the list helpers. -/

theorem updateFirst_eq_none {α : Type} {p : α → Bool} {f : α → α} {l : List α} :
    updateFirst p f l = none ↔ ∀ x ∈ l, ¬ p x := by
  induction l with
  | nil => simp [updateFirst]
  | cons a l ih => by_cases hpa : p a <;> simp [updateFirst, hpa, ih]

theorem exists_of_updateFirst_some {α : Type} {p : α → Bool} {f : α → α}
    {l l' : List α} (h : updateFirst p f l = some l') : ∃ x ∈ l, p x := by
  induction l generalizing l' with
  | nil => simp [updateFirst] at h
  | cons a l ih =>
    rw [updateFirst] at h
    by_cases hpa : p a
    · exact ⟨a, List.mem_cons_self a l, hpa⟩
    · rw [if_neg hpa] at h
      cases hl : updateFirst p f l with
      | none => rw [hl] at h; simp at h
      | some l₀ =>
        obtain ⟨x, hx, hpx⟩ := ih hl
        exact ⟨x, List.mem_cons_of_mem a hx, hpx⟩

theorem countP_updateFirst {α : Type} {p q : α → Bool} {f : α → α} {l l' : List α}
    (hq : ∀ x, q (f x) = q x) (h : updateFirst p f l = some l') :
    l'.countP q = l.countP q := by
  induction l generalizing l' with
  | nil => simp [updateFirst] at h
  | cons a l ih =>
    rw [updateFirst] at h
    by_cases hpa : p a
    · rw [if_pos hpa] at h
      obtain rfl : f a :: l = l' := by simpa using h
      simp [List.countP_cons, hq]
    · rw [if_neg hpa] at h
      cases hl : updateFirst p f l with
      | none => rw [hl] at h; simp at h
      | some l₀ =>
        rw [hl] at h
        obtain rfl : a :: l₀ = l' := by simpa using h
        simp [List.countP_cons, ih hl]

theorem filter_updateFirst_const {α : Type} {p : α → Bool} {pd : α} {l l' : List α}
    (hcount : l.countP p ≤ 1) (hpd : p pd = true)
    (h : updateFirst p (fun _ => pd) l = some l') :
    l'.filter p = [pd] := by
  induction l generalizing l' with
  | nil => simp [updateFirst] at h
  | cons a l ih =>
    rw [updateFirst] at h
    by_cases hpa : p a
    · rw [if_pos hpa] at h
      obtain rfl : pd :: l = l' := by simpa using h
      have h0 : l.countP p = 0 := by
        rw [List.countP_cons, if_pos hpa] at hcount; omega
      rw [List.filter_cons_of_pos hpd, List.filter_eq_nil_iff.mpr (List.countP_eq_zero.mp h0)]
    · rw [if_neg hpa] at h
      cases hl : updateFirst p (fun _ => pd) l with
      | none => rw [hl] at h; simp at h
      | some l₀ =>
        rw [hl] at h
        obtain rfl : a :: l₀ = l' := by simpa using h
        rw [List.filter_cons_of_neg hpa]
        exact ih (by rw [List.countP_cons, if_neg hpa] at hcount; simpa using hcount) hl

theorem find?_update_of_found {α : Type} {p : α → Bool} {l : List α} {b b' : α}
    (h : l.find? p = some b) (hb' : p b' = true) :
    (l.map fun x => if p x then b' else x).find? p = some b' := by
  induction l with
  | nil => simp at h
  | cons a l ih =>
    rw [List.find?_cons] at h
    by_cases hpa : p a
    · simp [List.find?_cons, hpa, hb']
    · simp only [hpa] at h
      simp only [List.map_cons, List.find?_cons, hpa, if_neg, Bool.false_eq_true, if_false]
      simp [hpa, ih h]

/-- Saving a batch that keeps its id makes it the batch `findBatch` returns. -/
theorem findBatch_saveBatch {db : DB} {bid : MId} {b b' : Batch}
    (h : findBatch db bid = some b) (hid : b'.id = bid) :
    findBatch (saveBatch db bid b') bid = some b' := by
  have : (fun x : Batch => if decide (x.id = bid) = true then b' else x) =
      (fun x : Batch => if x.id = bid then b' else x) := by
    funext x; by_cases hx : x.id = bid <;> simp [hx]
  unfold findBatch saveBatch
  rw [← this]
  exact find?_update_of_found h (by simp [hid])

/-! Claim theorems. -/

/-- C10: the reads of a batch's details, announcements, timetable and full
fee list perform no authentication or authorization: two runs with different
or absent credentials return identical results, and for an existing batch
the response is the full stored data. -/
theorem c10_reads_unauthenticated (db : DB) (bid : MId) (a1 a2 : Option MId)
    (b : Batch) (hb : findBatch db bid = some b) :
    getBatchDetails db a1 bid = getBatchDetails db a2 bid ∧
    getAnnouncements db a1 bid = getAnnouncements db a2 bid ∧
    getTimetable db a1 bid = getTimetable db a2 bid ∧
    getFees db a1 bid = getFees db a2 bid ∧
    getBatchDetails db a1 bid = (200, some ⟨b.id, b.name, b.batch_code, b.klass,
      b.teacher_id, b.students, b.createdAt, b.announcements, b.timetable⟩) ∧
    getAnnouncements db a1 bid = (200, some b.announcements) ∧
    getTimetable db a1 bid = (200, some b.timetable) ∧
    getFees db a1 bid = (200, some b.feesPayments) := by
  refine ⟨rfl, rfl, rfl, rfl, ?_, ?_, ?_, ?_⟩ <;>
    simp [getBatchDetails, getAnnouncements, getTimetable, getFees, hb]

/-- Witness for C10 at the sample database: batch 5 exists, and its fee list
is served to a caller with no credential at all. -/
theorem c10_reads_unauthenticated_witness :
    findBatch exDB 5 = some exBatch ∧
    getFees exDB none 5 = (200, some exBatch.feesPayments) :=
  ⟨by rfl,
   (c10_reads_unauthenticated exDB 5 none (some 99) exBatch (by rfl)).2.2.2.2.2.2.2⟩

/-- C9: the derived `attendancePercentage` equals
`round2(present/totalClasses*100)` — 0 when `totalClasses = 0` — and 3
present of 4 total yields 75.00.  (JavaScript numbers are modelled as exact
rationals.) -/
theorem c9_attendance_percentage (recs : List FormattedAttendance) :
    (attendanceStatistics recs).2.2.2 =
      specAttendancePercentage (attendanceStatistics recs).2.1 (attendanceStatistics recs).1 ∧
    (recs.length = 0 → (attendanceStatistics recs).2.2.2 = 0) ∧
    attendanceStatistics [⟨1, "present", "", none⟩, ⟨2, "present", "", none⟩,
      ⟨3, "present", "", none⟩, ⟨4, "absent", "", none⟩] = (4, 3, 1, 75) := by
  refine ⟨?_, ?_, ?_⟩
  · simp only [attendanceStatistics, specAttendancePercentage]
    by_cases h : recs.length = 0
    · simp [h, round2]
    · simp [h, Nat.pos_of_ne_zero h]
  · intro h
    simp [attendanceStatistics, h, round2]
  · simp only [attendanceStatistics, List.filter, round2,
      show decide ("present" = "present") = true from rfl,
      show decide ("absent" = "present") = false from rfl]
    norm_num [round_eq]

/-- Witness for C9: the zero-classes clause at the empty record list. -/
theorem c9_attendance_percentage_witness :
    ([] : List FormattedAttendance).length = 0 ∧
    (attendanceStatistics ([] : List FormattedAttendance)).2.2.2 = 0 :=
  ⟨rfl, (c9_attendance_percentage []).2.1 rfl⟩

/-- C8: a created batch stores the uppercase form of the supplied code, and a
second creation whose code matches an existing batch's code up to case fails
with 409 Conflict, creating nothing. -/
theorem c8_batch_code_uppercase (db : DB) (code name klass : String)
    (tid newId : MId) (now : Int)
    (hc : code ≠ "") (hn : name ≠ "") (hk : klass ≠ "")
    (ht : isAdmin db tid = true)
    (hdup : db.batches.find? (fun b => decide (b.batch_code = jsUpper code)) = none) :
    ∃ db1 : DB,
      createBatch db code name klass tid newId now = (201, db1) ∧
      db1.batches = db.batches ++
        [⟨newId, jsUpper code, name, klass, tid, [], [], [], Timetable.empty, [], now⟩] ∧
      ∀ code2 name2 klass2 tid2 newId2 now2, code2 ≠ "" → name2 ≠ "" → klass2 ≠ "" →
        isAdmin db tid2 = true → jsUpper code2 = jsUpper code →
        createBatch db1 code2 name2 klass2 tid2 newId2 now2 = (409, db1) := by
  refine ⟨{ db with batches := db.batches ++
    [⟨newId, jsUpper code, name, klass, tid, [], [], [], Timetable.empty, [], now⟩] }, ?_, rfl, ?_⟩
  · unfold createBatch
    rw [if_neg (by simp [hc, hn, hk]), if_pos ht, hdup]
  · intro code2 name2 klass2 tid2 newId2 now2 hc2 hn2 hk2 ht2 heq
    unfold createBatch
    rw [if_neg (by simp [hc2, hn2, hk2]), if_pos (by simpa [isAdmin] using ht2)]
    cases hfind : (db.batches ++
        [(⟨newId, jsUpper code, name, klass, tid, [], [], [], Timetable.empty, [],
          now⟩ : Batch)]).find? (fun b => decide (b.batch_code = jsUpper code2)) with
    | none =>
      exfalso
      have hnb := List.find?_eq_none.mp hfind
        ⟨newId, jsUpper code, name, klass, tid, [], [], [], Timetable.empty, [], now⟩
        (by simp)
      simp [heq] at hnb
    | some x => simp [hfind]

/-- Witness for C8 at the sample database: creating code `xyz` stores `XYZ`,
and a second creation with code `XyZ` conflicts. -/
theorem c8_batch_code_uppercase_witness :
    ("xyz" : String) ≠ "" ∧ ("nb" : String) ≠ "" ∧ ("9th" : String) ≠ "" ∧
    isAdmin exDB 1 = true ∧
    exDB.batches.find? (fun b => decide (b.batch_code = jsUpper "xyz")) = none ∧
    ∃ db1 : DB,
      createBatch exDB "xyz" "nb" "9th" 1 50 0 = (201, db1) ∧
      db1.batches = exDB.batches ++
        [⟨50, jsUpper "xyz", "nb", "9th", 1, [], [], [], Timetable.empty, [], 0⟩] ∧
      ∀ code2 name2 klass2 tid2 newId2 now2, code2 ≠ "" → name2 ≠ "" → klass2 ≠ "" →
        isAdmin exDB tid2 = true → jsUpper code2 = jsUpper "xyz" →
        createBatch db1 code2 name2 klass2 tid2 newId2 now2 = (409, db1) :=
  ⟨by decide, by decide, by decide, by decide, by rfl,
   c8_batch_code_uppercase exDB "xyz" "nb" "9th" 1 50 0
     (by decide) (by decide) (by decide) (by decide) (by rfl)⟩

/-- Counterexample for C1: `POST /batches/:batchId/timetable` (set-day), a
batch-scoped mutating operation, performs no ownership check at all — a
caller whose identity 99 differs from the owning teacher 1 gets 200 and the
batch's timetable is mutated. -/
theorem c1_counterexample :
    exBatch.teacher_id ≠ 99 ∧
    (setDayTimetable exDB (some 99) 5 "monday" [exTTEntry]).1 = 200 ∧
    (findBatch (setDayTimetable exDB (some 99) 5 "monday" [exTTEntry]).2 5).map
      (fun b => b.timetable.get Day.monday) = some [exTTEntry] := by
  refine ⟨by decide, by rfl, by rfl⟩

/-- Counterexample for C5: `PUT /batches/:batchId/timetable/:day/:hour`
accepts hour 9 (only `hour < 1` is rejected), so a batch state containing a
timetable entry with hour 9 is reachable. -/
theorem c5_counterexample :
    (upsertTimetableEntry exDB (some 1) 5 "monday" 9 "math" none none none).1 = 200 ∧
    (findBatch (upsertTimetableEntry exDB (some 1) 5 "monday" 9 "math" none none none).2 5).map
      (fun b => b.timetable.get Day.monday) = some [⟨9, "math", none, none, none⟩] := by
  refine ⟨by rfl, by rfl⟩

/-- C2: a parent read of a student's attendance, tests, or fees succeeds only
when `student.parentEmail` equals the parent's email; whenever they differ
the read fails with 403 Forbidden, regardless of enrollment. -/
theorem c2_parent_linked_reads (db : DB) (pid sid bid : MId)
    (parent student : User) (range? : Option (Int × Int))
    (hp : findUser db pid = some parent) (hrole : parent.role = "parent")
    (hs : findUser db sid = some student) :
    (student.parentEmail ≠ some parent.email →
      (getParentStudentAttendance db (some pid) bid sid range?).1 = 403 ∧
      (getParentTests db (some pid) bid (some sid)).1 = 403 ∧
      (getParentFees db none bid (some pid) (some sid)).1 = 403) ∧
    (((getParentStudentAttendance db (some pid) bid sid range?).1 = 200 ∨
      (getParentTests db (some pid) bid (some sid)).1 = 200 ∨
      (getParentFees db none bid (some pid) (some sid)).1 = 200) →
      student.parentEmail = some parent.email) := by
  constructor
  · intro hmm
    refine ⟨?_, ?_, ?_⟩
    · simp [getParentStudentAttendance, hp, hrole, hs, hmm]
    · simp [getParentTests, hp, hs, hmm]
    · simp [getParentFees, hp, hrole, hs, hmm]
  · intro h
    by_cases he : student.parentEmail = some parent.email
    · exact he
    · exfalso
      rcases h with h | h | h
      · rw [show (getParentStudentAttendance db (some pid) bid sid range?).1 = 403 by
          simp [getParentStudentAttendance, hp, hrole, hs, he]] at h
        omega
      · rw [show (getParentTests db (some pid) bid (some sid)).1 = 403 by
          simp [getParentTests, hp, hs, he]] at h
        omega
      · rw [show (getParentFees db none bid (some pid) (some sid)).1 = 403 by
          simp [getParentFees, hp, hrole, hs, he]] at h
        omega

/-- Witness for C2: parent 21 (`q@x`) is not linked to student 10 (whose
`parentEmail` is `p@x`), and all three reads return 403 even though the
student is enrolled in batch 5. -/
theorem c2_parent_linked_reads_witness :
    findUser exDB 21 = some exParent2 ∧ exParent2.role = "parent" ∧
    findUser exDB 10 = some exStudent ∧
    exStudent.parentEmail ≠ some exParent2.email ∧
    (getParentStudentAttendance exDB (some 21) 5 10 none).1 = 403 ∧
    (getParentTests exDB (some 21) 5 (some 10)).1 = 403 ∧
    (getParentFees exDB none 5 (some 21) (some 10)).1 = 403 := by
  have h := (c2_parent_linked_reads exDB 21 10 5 exParent2 exStudent none
    (by rfl) (by rfl) (by rfl)).1 (by decide)
  exact ⟨by rfl, by rfl, by rfl, by decide, h.1, h.2.1, h.2.2⟩

/-- C3: a first attendance mark for a (batch, date) creates a record, a
second mark for the same pair fails with 400 and changes nothing, marking
preserves the at-most-one-record-per-(batch_id, date) invariant, and an
attendance update fails with 400 BadRequest when the record's `batch_id`
differs from the request's batch. -/
theorem c3_attendance_per_batch_date (db : DB) (tid bid attId newId : MId)
    (date : Int) (records newRecords : List AttendanceEntry)
    (b : Batch) (att : AttendanceRecord)
    (ht : isAdmin db tid = true) :
    (db.attendances.find?
        (fun a => decide (a.batch_id = bid) && decide (a.date = date)) = none →
      markAttendance db (some tid) bid date records newId =
        (201, { db with attendances := db.attendances ++ [⟨newId, bid, date, records, tid⟩] })) ∧
    ((∃ a, db.attendances.find?
        (fun a => decide (a.batch_id = bid) && decide (a.date = date)) = some a) →
      markAttendance db (some tid) bid date records newId = (400, db)) ∧
    (attendanceUnique db.attendances →
      attendanceUnique (markAttendance db (some tid) bid date records newId).2.attendances) ∧
    (findBatch db bid = some b → b.teacher_id = tid →
      findAttendance db attId = some att → att.batch_id ≠ bid →
      updateAttendance db (some tid) bid attId newRecords = (400, db)) := by
  refine ⟨?_, ?_, ?_, ?_⟩
  · intro h
    simp [markAttendance, ht, h]
  · rintro ⟨a, ha⟩
    simp [markAttendance, ht, ha]
  · intro hu
    cases hfind : db.attendances.find?
        (fun a => decide (a.batch_id = bid) && decide (a.date = date)) with
    | some a => simpa [markAttendance, ht, hfind] using hu
    | none =>
      have hall := List.find?_eq_none.mp hfind
      simp only [markAttendance, ht, hfind, if_true]
      unfold attendanceUnique
      rw [List.pairwise_append]
      refine ⟨hu, by simp, ?_⟩
      intro a ha x hx
      simp only [List.mem_singleton] at hx
      subst hx
      have := hall a ha
      simp only [Bool.and_eq_true, decide_eq_true_eq, not_and] at this
      by_cases hba : a.batch_id = bid
      · exact Or.inr (by simpa using this hba)
      · exact Or.inl (by simpa using hba)
  · intro hb hown hatt hmm
    simp [updateAttendance, ht, hb, hown, hatt, hmm]

/-- Witness for C3 at the sample database: marking (batch 5, date 200)
creates the record, re-marking (batch 5, date 100) fails, and updating
attendance 7 (batch 5) through batch 6 fails with 400. -/
theorem c3_attendance_per_batch_date_witness :
    isAdmin exDB 1 = true ∧
    exDB.attendances.find?
      (fun a => decide (a.batch_id = 5) && decide (a.date = 200)) = none ∧
    markAttendance exDB (some 1) 5 200 [] 8 =
      (201, { exDB with attendances := exDB.attendances ++ [⟨8, 5, 200, [], 1⟩] }) ∧
    markAttendance exDB (some 1) 5 100 [] 9 = (400, exDB) ∧
    updateAttendance exDB (some 1) 6 7 [] = (400, exDB) := by
  refine ⟨by decide, by rfl, ?_, ?_, ?_⟩
  · exact (c3_attendance_per_batch_date exDB 1 5 7 8 200 [] [] exBatch exAttendance
      (by decide)).1 (by rfl)
  · exact (c3_attendance_per_batch_date exDB 1 5 7 9 100 [] [] exBatch exAttendance
      (by decide)).2.1 ⟨exAttendance, by rfl⟩
  · exact (c3_attendance_per_batch_date exDB 1 6 7 9 100 [] [] exBatch2 exAttendance
      (by decide)).2.2.2 (by rfl) (by decide) (by rfl) (by decide)

/-- C5 (amended): set-day validates every entry to hour ∈ [1,8] and a
non-empty subject, rejecting the request with 400 and leaving the state
unchanged otherwise, and stores exactly the validated entries on success;
the per-slot upsert however rejects only an empty subject and hour < 1 —
any hour ≥ 1 is accepted — so batch states containing timetable entries
with hour > 8 are reachable through it. -/
theorem c5_timetable_hour_validation (db : DB) (auth : Option MId)
    (tid bid : MId) (day : String) (d : Day) (entries : List TTEntry)
    (e : TTEntry) (hourNum : Int) (subject : String)
    (t? s? en? : Option String) (b : Batch) :
    (e ∈ entries → (e.hour < 1 ∨ e.hour > 8 ∨ e.subject = "") →
      setDayTimetable db auth bid day entries = (400, db)) ∧
    (parseDay (jsLower day) = some d → entries.all validTTEntry = true →
      findBatch db bid = some b →
      setDayTimetable db auth bid day entries =
        (200, saveBatch db bid { b with timetable := b.timetable.set d entries })) ∧
    (isAdmin db tid = true →
      upsertTimetableEntry db (some tid) bid day hourNum "" t? s? en? = (400, db)) ∧
    (isAdmin db tid = true → subject ≠ "" → parseDay (jsLower day) = some d →
      hourNum < 1 →
      upsertTimetableEntry db (some tid) bid day hourNum subject t? s? en? = (400, db)) ∧
    (isAdmin db tid = true → subject ≠ "" → parseDay (jsLower day) = some d →
      1 ≤ hourNum → findBatch db bid = some b → b.teacher_id = tid →
      (upsertTimetableEntry db (some tid) bid day hourNum subject t? s? en?).1 = 200) := by
  refine ⟨?_, ?_, ?_, ?_, ?_⟩
  · intro he hbad
    cases hd : parseDay (jsLower day) with
    | none => simp [setDayTimetable, hd]
    | some d' =>
      have hv : validTTEntry e = false := by
        rcases hbad with h | h | h <;> simp [validTTEntry, h]
      have hall : entries.all validTTEntry = false :=
        List.all_eq_false.mpr ⟨e, he, by simp [hv]⟩
      simp [setDayTimetable, hd, hall]
  · intro hday hall hb
    simp [setDayTimetable, hday, hall, hb]
  · intro ht
    simp [upsertTimetableEntry, ht]
  · intro ht hsub hday hlt
    simp [upsertTimetableEntry, ht, hsub, hday, hlt]
  · intro ht hsub hday hge hb hown
    simp [upsertTimetableEntry, ht, hsub, hday, hb, hown, show ¬ hourNum < 1 by omega]

/-- Witness for C5 (amended): set-day rejects an hour-9 entry, while the
per-slot upsert accepts hour 9 on the same batch. -/
theorem c5_timetable_hour_validation_witness :
    (⟨9, "m", none, none, none⟩ : TTEntry) ∈ [(⟨9, "m", none, none, none⟩ : TTEntry)] ∧
    ((9 : Int) < 1 ∨ (9 : Int) > 8 ∨ ("m" : String) = "") ∧
    setDayTimetable exDB (some 1) 5 "monday" [⟨9, "m", none, none, none⟩] = (400, exDB) ∧
    isAdmin exDB 1 = true ∧ ("math" : String) ≠ "" ∧
    parseDay (jsLower "monday") = some Day.monday ∧
    (1 : Int) ≤ 9 ∧ findBatch exDB 5 = some exBatch ∧ exBatch.teacher_id = 1 ∧
    (upsertTimetableEntry exDB (some 1) 5 "monday" 9 "math" none none none).1 = 200 := by
  have h := c5_timetable_hour_validation exDB (some 1) 1 5 "monday" Day.monday
    [⟨9, "m", none, none, none⟩] ⟨9, "m", none, none, none⟩ 9 "math" none none none exBatch
  exact ⟨by decide, by decide, h.1 (by decide) (by decide), by decide, by decide, by rfl,
    by decide, by rfl, by decide,
    h.2.2.2.2 (by decide) (by decide) (by rfl) (by decide) (by rfl) (by decide)⟩

/-- C1 (amended): every listed batch-scoped mutating operation except
timetable set-day and bulk student-add fails with 403 Forbidden and leaves
the state unchanged when the caller's identity differs from
`batch.teacher_id`; timetable set-day and bulk student-add read no
authorization data at all, so their outcome is identical for every caller
(the counterexample shows a non-owner mutating a batch through set-day). -/
theorem c1_teacher_owns_batch (db : DB) (tid bid : MId) (b : Batch)
    (ht : isAdmin db tid = true) (hb : findBatch db bid = some b)
    (hown : b.teacher_id ≠ tid) :
    (∀ name? klass?, updateBatch db (some tid) bid name? klass? = (403, db)) ∧
    deleteBatch db (some tid) bid = (403, db) ∧
    (∀ sid, removeStudent db (some tid) bid sid = (403, db)) ∧
    (∀ title content now annId,
      createAnnouncement db (some tid) bid title content now annId = (403, db)) ∧
    (∀ annId title? content?,
      updateAnnouncement db (some tid) bid annId title? content? = (403, db)) ∧
    (∀ annId, deleteAnnouncement db (some tid) bid annId = (403, db)) ∧
    (∀ attId records, updateAttendance db (some tid) bid attId records = (403, db)) ∧
    (∀ attId, deleteAttendance db (some tid) bid attId = (403, db)) ∧
    (∀ day d hourNum subject t? s? en?, parseDay (jsLower day) = some d →
      subject ≠ "" → ¬ hourNum < 1 →
      upsertTimetableEntry db (some tid) bid day hourNum subject t? s? en? = (403, db)) ∧
    (∀ day d hourNum, parseDay (jsLower day) = some d → ¬ (hourNum < 1 ∨ hourNum > 8) →
      deleteTimetableEntry db (some tid) bid day hourNum = (403, db)) ∧
    (∀ day d, parseDay (jsLower day) = some d →
      clearDayTimetable db (some tid) bid day = (403, db)) ∧
    (∀ examName mm subject now testId,
      createTest db (some tid) bid examName mm subject now testId = (403, db)) ∧
    (∀ testId en? mm? s? marks,
      updateTest db (some tid) bid testId en? mm? s? marks = (403, db)) ∧
    (∀ testId, deleteTest db (some tid) bid testId = (403, db)) ∧
    (∀ a1 a2 day entries,
      setDayTimetable db a1 bid day entries = setDayTimetable db a2 bid day entries) ∧
    (∀ a1 a2 sids, addStudents db a1 bid sids = addStudents db a2 bid sids) := by
  refine ⟨?_, ?_, ?_, ?_, ?_, ?_, ?_, ?_, ?_, ?_, ?_, ?_, ?_, ?_,
    fun _ _ _ _ => rfl, fun _ _ _ => rfl⟩
  · intro name? klass?
    simp [updateBatch, ht, hb, hown]
  · simp [deleteBatch, hb, hown]
  · intro sid
    simp [removeStudent, ht, hb, hown]
  · intro title content now annId
    simp [createAnnouncement, ht, hb, hown]
  · intro annId title? content?
    simp [updateAnnouncement, ht, hb, hown]
  · intro annId
    simp [deleteAnnouncement, ht, hb, hown]
  · intro attId records
    simp [updateAttendance, ht, hb, hown]
  · intro attId
    simp [deleteAttendance, ht, hb, hown]
  · intro day d hourNum subject t? s? en? hday hsub hh
    simp [upsertTimetableEntry, ht, hb, hown, hday, hsub, hh]
  · intro day d hourNum hday hh
    simp [deleteTimetableEntry, ht, hb, hown, hday, hh]
  · intro day d hday
    simp [clearDayTimetable, ht, hb, hown, hday]
  · intro examName mm subject now testId
    simp [createTest, hb, hown]
  · intro testId en? mm? s? marks
    simp [updateTest, hb, hown]
  · intro testId
    simp [deleteTest, hb, hown]

/-- Reading a day back after writing it. -/
theorem Timetable.get_set_self (t : Timetable) (d : Day) (l : List TTEntry) :
    (t.set d l).get d = l := by
  cases d <;> rfl

/-- A fee upsert leaves exactly the new payment data as the student's
records, provided the student had at most one record before. -/
theorem filter_feeUpsertList {l : List FeePayment} {sid : MId} {pd : FeePayment}
    (hcount : l.countP (fun p => decide (p.student = sid)) ≤ 1)
    (hpd : pd.student = sid) :
    (feeUpsertList l sid pd).filter (fun p => decide (p.student = sid)) = [pd] := by
  unfold feeUpsertList
  cases hu : updateFirst (fun p => decide (p.student = sid)) (fun _ => pd) l with
  | some l' => exact filter_updateFirst_const hcount (by simp [hpd]) hu
  | none =>
    have h0 : l.filter (fun p => decide (p.student = sid)) = [] :=
      List.filter_eq_nil_iff.mpr (updateFirst_eq_none.mp hu)
    rw [List.filter_append, h0]
    simp [hpd]

/-- The success shape of the fee-upsert handler. -/
theorem upsertFee_success {db : DB} {auth : Option MId} {bid sid : MId}
    {amount : ℚ} {m st : String} {r : Option String} {n : Int} {b : Batch}
    (ha : 0 < amount) (hm : m = "online" ∨ m = "offline")
    (hst : st = "paid" ∨ st = "pending" ∨ st = "overdue")
    (hb : findBatch db bid = some b) (hsid : sid ∈ b.students) :
    upsertFee db auth bid sid amount m st r n =
      (200, saveBatch db bid { b with feesPayments := feeUpsertList b.feesPayments sid ⟨sid, amount, n, m, st, r.getD ""⟩ }) := by
  have h1 : ¬ amount ≤ 0 := not_le.mpr ha
  have h2 : ¬ (m ≠ "online" ∧ m ≠ "offline") := by tauto
  have h3 : ¬ (st ≠ "paid" ∧ st ≠ "pending" ∧ st ≠ "overdue") := by tauto
  simp [upsertFee, h1, h2, h3, hb, hsid]

/-- C4: a fee upsert for a student not enrolled in the batch fails with 404
NotFound and leaves the fee list unchanged; for an enrolled student with at
most one existing record, two successive upserts leave exactly one record
for that student, carrying the second call's amount, method, status and
remarks. -/
theorem c4_fee_upsert (db : DB) (auth1 auth2 : Option MId) (bid sid : MId)
    (a1 a2 : ℚ) (m1 m2 st1 st2 : String) (r1 r2 : Option String) (n1 n2 : Int)
    (b : Batch)
    (ha1 : 0 < a1) (ha2 : 0 < a2)
    (hm1 : m1 = "online" ∨ m1 = "offline") (hm2 : m2 = "online" ∨ m2 = "offline")
    (hst1 : st1 = "paid" ∨ st1 = "pending" ∨ st1 = "overdue")
    (hst2 : st2 = "paid" ∨ st2 = "pending" ∨ st2 = "overdue")
    (hb : findBatch db bid = some b) :
    (sid ∉ b.students → upsertFee db auth1 bid sid a1 m1 st1 r1 n1 = (404, db)) ∧
    (sid ∈ b.students →
      b.feesPayments.countP (fun p => decide (p.student = sid)) ≤ 1 →
      ∃ db1 db2 b2,
        upsertFee db auth1 bid sid a1 m1 st1 r1 n1 = (200, db1) ∧
        upsertFee db1 auth2 bid sid a2 m2 st2 r2 n2 = (200, db2) ∧
        findBatch db2 bid = some b2 ∧
        b2.feesPayments.filter (fun p => decide (p.student = sid)) =
          [⟨sid, a2, n2, m2, st2, r2.getD ""⟩]) := by
  have hb' : db.batches.find? (fun x => decide (x.id = bid)) = some b := hb
  have hbid : b.id = bid := by simpa using List.find?_some hb'
  constructor
  · intro hout
    have h1 : ¬ a1 ≤ 0 := not_le.mpr ha1
    have h2 : ¬ (m1 ≠ "online" ∧ m1 ≠ "offline") := by tauto
    have h3 : ¬ (st1 ≠ "paid" ∧ st1 ≠ "pending" ∧ st1 ≠ "overdue") := by tauto
    simp [upsertFee, h1, h2, h3, hb, hout]
  · intro hin hcount
    have u1 := @upsertFee_success db auth1 bid sid a1 m1 st1 r1 n1 b ha1 hm1 hst1 hb hin
    have hf1 := @findBatch_saveBatch db bid b
      { b with feesPayments := feeUpsertList b.feesPayments sid ⟨sid, a1, n1, m1, st1, r1.getD ""⟩ }
      hb hbid
    have hfil1 : (feeUpsertList b.feesPayments sid
        ⟨sid, a1, n1, m1, st1, r1.getD ""⟩).filter (fun p => decide (p.student = sid)) =
        [⟨sid, a1, n1, m1, st1, r1.getD ""⟩] :=
      filter_feeUpsertList hcount rfl
    have hcount1 : (feeUpsertList b.feesPayments sid
        ⟨sid, a1, n1, m1, st1, r1.getD ""⟩).countP (fun p => decide (p.student = sid)) ≤ 1 := by
      rw [List.countP_eq_length_filter, hfil1]
      simp
    have u2 := @upsertFee_success
      (saveBatch db bid { b with feesPayments := feeUpsertList b.feesPayments sid ⟨sid, a1, n1, m1, st1, r1.getD ""⟩ })
      auth2 bid sid a2 m2 st2 r2 n2
      { b with feesPayments := feeUpsertList b.feesPayments sid ⟨sid, a1, n1, m1, st1, r1.getD ""⟩ }
      ha2 hm2 hst2 hf1 hin
    have hf2 := @findBatch_saveBatch (saveBatch db bid _) bid _
      { b with feesPayments := feeUpsertList (feeUpsertList b.feesPayments sid
          ⟨sid, a1, n1, m1, st1, r1.getD ""⟩) sid ⟨sid, a2, n2, m2, st2, r2.getD ""⟩ }
      hf1 hbid
    refine ⟨_, _, _, u1, u2, hf2, ?_⟩
    exact filter_feeUpsertList hcount1 rfl

/-- Witness for C4 at the sample database: an upsert for unenrolled student
11 fails with 404; two upserts for enrolled student 10 leave exactly the
second record. -/
theorem c4_fee_upsert_witness :
    findBatch exDB 5 = some exBatch ∧ (11 : MId) ∉ exBatch.students ∧
    upsertFee exDB none 5 11 500 "online" "paid" none 1 = (404, exDB) ∧
    (10 : MId) ∈ exBatch.students ∧
    exBatch.feesPayments.countP (fun p => decide (p.student = 10)) ≤ 1 ∧
    (∃ db1 db2 b2,
      upsertFee exDB none 5 10 500 "online" "paid" none 1 = (200, db1) ∧
      upsertFee db1 none 5 10 600 "offline" "pending" (some "late") 2 = (200, db2) ∧
      findBatch db2 5 = some b2 ∧
      b2.feesPayments.filter (fun p => decide (p.student = 10)) =
        [⟨10, 600, 2, "offline", "pending", "late"⟩]) := by
  have hA := c4_fee_upsert exDB none none 5 11 500 600 "online" "offline" "paid" "pending"
    none (some "late") 1 2 exBatch (by decide) (by decide)
    (Or.inl rfl) (Or.inr rfl) (Or.inl rfl) (Or.inr (Or.inl rfl)) (by rfl)
  have hB := c4_fee_upsert exDB none none 5 10 500 600 "online" "offline" "paid" "pending"
    none (some "late") 1 2 exBatch (by decide) (by decide)
    (Or.inl rfl) (Or.inr rfl) (Or.inl rfl) (Or.inr (Or.inl rfl)) (by rfl)
  exact ⟨by rfl, by decide, hA.1 (by decide), by decide, by decide,
    hB.2 (by decide) (by decide)⟩

/-- The count of entries at the requested hour after a slot upsert is
exactly one, provided the day held at most one such entry before. -/
theorem countP_ttUpsertList {l : List TTEntry} {h : Int} {subject : String}
    {t? s? en? : Option String}
    (hcount : l.countP (fun e => decide (e.hour = h)) ≤ 1) :
    (ttUpsertList l h subject t? s? en?).countP (fun e => decide (e.hour = h)) = 1 := by
  cases hu : updateFirst (fun e => decide (e.hour = h))
      (fun e => { e with
        subject := subject,
        teacher := (t?.map some).getD e.teacher,
        startTime := (s?.map some).getD e.startTime,
        endTime := (en?.map some).getD e.endTime }) l with
  | some l' =>
    have hts : ttUpsertList l h subject t? s? en? = l' := by
      unfold ttUpsertList
      rw [hu]
    have h1 := @countP_updateFirst TTEntry (fun e => decide (e.hour = h))
      (fun e => decide (e.hour = h))
      (fun e => { e with
        subject := subject,
        teacher := (t?.map some).getD e.teacher,
        startTime := (s?.map some).getD e.startTime,
        endTime := (en?.map some).getD e.endTime }) l l' (fun x => rfl) hu
    have h2 : 0 < l.countP (fun e => decide (e.hour = h)) :=
      List.countP_pos_iff.mpr (exists_of_updateFirst_some hu)
    rw [hts]
    omega
  | none =>
    have hts : ttUpsertList l h subject t? s? en? = l ++ [⟨h, subject, t?, s?, en?⟩] := by
      unfold ttUpsertList
      rw [hu]
    have h0 : l.countP (fun e => decide (e.hour = h)) = 0 :=
      List.countP_eq_zero.mpr (updateFirst_eq_none.mp hu)
    rw [hts, List.countP_append, h0]
    simp

/-- The success shape of the timetable slot-upsert handler. -/
theorem upsertTimetableEntry_success {db : DB} {tid bid : MId} {day : String}
    {d : Day} {h : Int} {subject : String} {t? s? en? : Option String} {b : Batch}
    (ht : isAdmin db tid = true) (hsub : subject ≠ "")
    (hday : parseDay (jsLower day) = some d) (hh : ¬ h < 1)
    (hb : findBatch db bid = some b) (hown : b.teacher_id = tid) :
    upsertTimetableEntry db (some tid) bid day h subject t? s? en? =
      (200, saveBatch db bid { b with timetable := b.timetable.set d (List.insertionSort byHour (ttUpsertList (b.timetable.get d) h subject t? s? en?)) }) := by
  simp [upsertTimetableEntry, ht, hsub, hday, hh, hb, hown]

/-- One successful timetable slot upsert, bundled with everything the next
upsert needs about the resulting state. -/
theorem upsertTimetableEntry_step (db : DB) (tid bid : MId) (day : String)
    (d : Day) (h : Int) (subject : String) (t? s? en? : Option String) (b : Batch)
    (ht : isAdmin db tid = true) (hsub : subject ≠ "")
    (hday : parseDay (jsLower day) = some d) (hh : ¬ h < 1)
    (hb : findBatch db bid = some b) (hown : b.teacher_id = tid)
    (hbid : b.id = bid)
    (hcount : (b.timetable.get d).countP (fun e => decide (e.hour = h)) ≤ 1) :
    ∃ db1 b1,
      upsertTimetableEntry db (some tid) bid day h subject t? s? en? = (200, db1) ∧
      findBatch db1 bid = some b1 ∧
      isAdmin db1 tid = true ∧ b1.teacher_id = tid ∧ b1.id = bid ∧
      (b1.timetable.get d).countP (fun e => decide (e.hour = h)) = 1 ∧
      List.Sorted byHour (b1.timetable.get d) := by
  refine ⟨_, _,
    @upsertTimetableEntry_success db tid bid day d h subject t? s? en? b
      ht hsub hday hh hb hown,
    findBatch_saveBatch hb ?_, ?_, ?_, ?_, ?_, ?_⟩
  · exact hbid
  · exact ht
  · exact hown
  · exact hbid
  · simp only [Timetable.get_set_self]
    rw [List.Perm.countP_eq _ (List.perm_insertionSort byHour _)]
    exact countP_ttUpsertList hcount
  · simp only [Timetable.get_set_self]
    exact List.sorted_insertionSort byHour _

/-- C6: two successive timetable upserts at the same (day, hour) leave
exactly one entry with that hour in the day's list, and after every upsert
the day's list is sorted by hour ascending (the day is assumed to start
with at most one entry at that hour, which every state reachable through
the upsert maintains). -/
theorem c6_timetable_upsert (db : DB) (tid bid : MId) (day : String) (d : Day)
    (h : Int) (s1 s2 : String) (te1 te2 sta1 sta2 en1 en2 : Option String) (b : Batch)
    (ht : isAdmin db tid = true) (hs1 : s1 ≠ "") (hs2 : s2 ≠ "")
    (hday : parseDay (jsLower day) = some d) (hh : 1 ≤ h)
    (hb : findBatch db bid = some b) (hown : b.teacher_id = tid)
    (hcount : (b.timetable.get d).countP (fun e => decide (e.hour = h)) ≤ 1) :
    ∃ db1 b1 db2 b2,
      upsertTimetableEntry db (some tid) bid day h s1 te1 sta1 en1 = (200, db1) ∧
      findBatch db1 bid = some b1 ∧
      (b1.timetable.get d).countP (fun e => decide (e.hour = h)) = 1 ∧
      List.Sorted byHour (b1.timetable.get d) ∧
      upsertTimetableEntry db1 (some tid) bid day h s2 te2 sta2 en2 = (200, db2) ∧
      findBatch db2 bid = some b2 ∧
      (b2.timetable.get d).countP (fun e => decide (e.hour = h)) = 1 ∧
      List.Sorted byHour (b2.timetable.get d) := by
  have hb' : db.batches.find? (fun x => decide (x.id = bid)) = some b := hb
  have hbid : b.id = bid := by simpa using List.find?_some hb'
  have hh' : ¬ h < 1 := by omega
  obtain ⟨db1, b1, u1, f1, ht1, own1, id1, c1, so1⟩ :=
    upsertTimetableEntry_step db tid bid day d h s1 te1 sta1 en1 b
      ht hs1 hday hh' hb hown hbid hcount
  obtain ⟨db2, b2, u2, f2, _, _, _, c2, so2⟩ :=
    upsertTimetableEntry_step db1 tid bid day d h s2 te2 sta2 en2 b1
      ht1 hs2 hday hh' f1 own1 id1 (le_of_eq c1)
  exact ⟨db1, b1, db2, b2, u1, f1, c1, so1, u2, f2, c2, so2⟩

/-- A duplicate-free list whose members all lie in `sids` but avoid the
member `i0` of `sids` is strictly shorter than `sids`. -/
theorem nodup_length_lt {α : Type} [DecidableEq α] {ids sids : List α} {i0 : α}
    (hnd : ids.Nodup) (hsub : ∀ x ∈ ids, x ∈ sids ∧ x ≠ i0) (hi0 : i0 ∈ sids) :
    ids.length < sids.length := by
  have h1 : ids.toFinset.card = ids.length := List.toFinset_card_of_nodup hnd
  have hsubF : ids.toFinset ⊆ sids.toFinset.erase i0 := by
    intro x hx
    rw [List.mem_toFinset] at hx
    rw [Finset.mem_erase]
    exact ⟨(hsub x hx).2, List.mem_toFinset.mpr (hsub x hx).1⟩
  have h2 := Finset.card_le_card hsubF
  have h3 : (sids.toFinset.erase i0).card = sids.toFinset.card - 1 :=
    Finset.card_erase_of_mem (List.mem_toFinset.mpr hi0)
  have h4 : 0 < sids.toFinset.card := Finset.card_pos.mpr ⟨i0, List.mem_toFinset.mpr hi0⟩
  have h5 := List.toFinset_card_le sids
  omega

/-- Two duplicate-free lists with the same members have the same length. -/
theorem nodup_length_eq {α : Type} [DecidableEq α] {ids sids : List α}
    (hnd : ids.Nodup) (h1 : ∀ x ∈ ids, x ∈ sids) (h2 : ∀ x ∈ sids, x ∈ ids)
    (hsnd : sids.Nodup) : ids.length = sids.length := by
  have e1 : ids.toFinset = sids.toFinset := by
    ext x
    simp only [List.mem_toFinset]
    exact ⟨h1 x, h2 x⟩
  have c1 := List.toFinset_card_of_nodup hnd
  have c2 := List.toFinset_card_of_nodup hsnd
  rw [← c1, ← c2, e1]

/-- A duplicate-free list included in `sids` and as long as `sids` forces
`sids` itself to be duplicate-free and covered by the list. -/
theorem nodup_length_converse {α : Type} [DecidableEq α] {ids sids : List α}
    (hnd : ids.Nodup) (h1 : ∀ x ∈ ids, x ∈ sids)
    (hlen : ids.length = sids.length) :
    sids.Nodup ∧ ∀ x ∈ sids, x ∈ ids := by
  have hsubF : ids.toFinset ⊆ sids.toFinset := by
    intro x hx
    rw [List.mem_toFinset] at hx ⊢
    exact h1 x hx
  have c1 : ids.toFinset.card = ids.length := List.toFinset_card_of_nodup hnd
  have c2 := Finset.card_le_card hsubF
  have c3 := List.toFinset_card_le sids
  have c4 : sids.toFinset.card = sids.length := by omega
  have hsnodup : sids.Nodup := by
    rw [List.card_toFinset] at c4
    exact List.dedup_eq_self.mp (List.Sublist.eq_of_length (List.dedup_sublist sids) c4)
  have heq : ids.toFinset = sids.toFinset :=
    Finset.eq_of_subset_of_card_le hsubF (by omega)
  refine ⟨hsnodup, fun x hx => ?_⟩
  have hxF : x ∈ ids.toFinset := heq ▸ List.mem_toFinset.mpr hx
  exact List.mem_toFinset.mp hxF

/-- C7: bulk add-students admits nothing unless every id resolves to a
student account (failing with 400 and leaving the state unchanged when some
id does not, and only ever succeeding on duplicate-free all-student id
lists), silently skips already-enrolled ids without error or duplicate, and
keeps `batch.students` duplicate-free. -/
theorem c7_add_students (db : DB) (auth : Option MId) (bid : MId)
    (studentIds : List MId) (b : Batch)
    (hu : (db.users.map User.id).Nodup)
    (hb : findBatch db bid = some b) (hnd : b.students.Nodup) :
    ((∃ i ∈ studentIds, ¬ isStudentAccount db i) →
      addStudents db auth bid studentIds = (400, db)) ∧
    (studentIds ≠ [] → studentIds.Nodup →
      (∀ i ∈ studentIds, isStudentAccount db i) →
      ∃ dbOne bOne, addStudents db auth bid studentIds = (200, dbOne) ∧
        findBatch dbOne bid = some bOne ∧
        bOne.students = b.students ++ studentIds.filter (fun i => decide (i ∉ b.students)) ∧
        bOne.students.Nodup ∧
        (∀ i ∈ b.students, bOne.students.count i = 1)) ∧
    (∀ dbq, addStudents db auth bid studentIds = (200, dbq) →
      studentIds.Nodup ∧ ∀ i ∈ studentIds, isStudentAccount db i) := by
  have hbfind : db.batches.find? (fun x => decide (x.id = bid)) = some b := hb
  have hbid : b.id = bid := by simpa using List.find?_some hbfind
  have hmnd : ((db.users.filter fun u =>
      decide (u.id ∈ studentIds) && decide (u.role = "student")).map User.id).Nodup :=
    ((List.filter_sublist db.users).map User.id).nodup hu
  have hmem1 : ∀ x ∈ (db.users.filter fun u =>
      decide (u.id ∈ studentIds) && decide (u.role = "student")).map User.id,
      x ∈ studentIds ∧ isStudentAccount db x := by
    intro x hx
    obtain ⟨v, hv, hvx⟩ := List.mem_map.mp hx
    obtain ⟨hvmem, hcond⟩ := List.mem_filter.mp hv
    simp only [Bool.and_eq_true, decide_eq_true_eq] at hcond
    subst hvx
    exact ⟨hcond.1, ⟨v, hvmem, rfl, hcond.2⟩⟩
  have hlm := List.length_map (db.users.filter fun u =>
    decide (u.id ∈ studentIds) && decide (u.role = "student")) User.id
  refine ⟨?_, ?_, ?_⟩
  · rintro ⟨i0, hi0, hbad⟩
    have hne : studentIds.isEmpty = false :=
      List.isEmpty_eq_false.mpr (by rintro rfl; simp at hi0)
    have hlt := nodup_length_lt hmnd
      (fun x hx => ⟨(hmem1 x hx).1, by rintro rfl; exact hbad (hmem1 x hx).2⟩) hi0
    have hkey : (db.users.filter fun u =>
        decide (u.id ∈ studentIds) && decide (u.role = "student")).length ≠
        studentIds.length := by omega
    simp [addStudents, hne, hb, hkey]
  · intro hne hnodup hvalid
    have hmem2 : ∀ x ∈ studentIds, x ∈ (db.users.filter fun u =>
        decide (u.id ∈ studentIds) && decide (u.role = "student")).map User.id := by
      intro x hx
      obtain ⟨v, hvmem, hvid, hvrole⟩ := hvalid x hx
      refine List.mem_map.mpr ⟨v, List.mem_filter.mpr ⟨hvmem, ?_⟩, hvid⟩
      simp [hvid, hx, hvrole]
    have hleq := nodup_length_eq hmnd (fun x hx => (hmem1 x hx).1) hmem2 hnodup
    have hkey : (db.users.filter fun u =>
        decide (u.id ∈ studentIds) && decide (u.role = "student")).length =
        studentIds.length := by omega
    have hneF : studentIds.isEmpty = false := List.isEmpty_eq_false.mpr hne
    refine ⟨saveBatch db bid { b with students := b.students ++ studentIds.filter (fun i => decide (i ∉ b.students)) },
      { b with students := b.students ++ studentIds.filter (fun i => decide (i ∉ b.students)) },
      ?_, findBatch_saveBatch hb hbid, rfl, ?_, ?_⟩
    · simp [addStudents, hneF, hb, hkey]
    · refine List.Nodup.append hnd (hnodup.filter _) ?_
      rw [List.disjoint_left]
      intro a ha hafil
      have hcond := (List.mem_filter.mp hafil).2
      simp only [decide_eq_true_eq] at hcond
      exact hcond ha
    · intro i hi
      rw [List.count_append]
      have h1 : b.students.count i = 1 := List.count_eq_one_of_mem hnd hi
      have h2 : (studentIds.filter (fun x => decide (x ∉ b.students))).count i = 0 := by
        rw [List.count_eq_zero]
        intro hmem
        have hcond := (List.mem_filter.mp hmem).2
        simp only [decide_eq_true_eq] at hcond
        exact hcond hi
      omega
  · intro dbq hsucc
    by_cases hemp : studentIds.isEmpty
    · simp [addStudents, hemp] at hsucc
    · rw [Bool.not_eq_true] at hemp
      by_cases hkey : (db.users.filter fun u =>
          decide (u.id ∈ studentIds) && decide (u.role = "student")).length =
          studentIds.length
      · have hlen2 : ((db.users.filter fun u =>
            decide (u.id ∈ studentIds) && decide (u.role = "student")).map User.id).length =
            studentIds.length := by omega
        have hres := nodup_length_converse hmnd (fun x hx => (hmem1 x hx).1) hlen2
        exact ⟨hres.1, fun i hi => (hmem1 i (hres.2 i hi)).2⟩
      · simp [addStudents, hemp, hb, hkey] at hsucc

/-- Witness for C7 at the sample database: adding [11, 99] fails because 99
is no student account; adding [10, 11] succeeds, skips the already-enrolled
10 without duplicating it, and keeps the roster duplicate-free. -/
theorem c7_add_students_witness :
    (exDB.users.map User.id).Nodup ∧ findBatch exDB 5 = some exBatch ∧
    exBatch.students.Nodup ∧
    (∃ i ∈ [(11 : MId), 99], ¬ isStudentAccount exDB i) ∧
    addStudents exDB none 5 [11, 99] = (400, exDB) ∧
    ([(10 : MId), 11] ≠ []) ∧ ([(10 : MId), 11]).Nodup ∧
    (∀ i ∈ [(10 : MId), 11], isStudentAccount exDB i) ∧
    (∃ dbOne bOne, addStudents exDB none 5 [10, 11] = (200, dbOne) ∧
      findBatch dbOne 5 = some bOne ∧
      bOne.students = exBatch.students ++
        [(10 : MId), 11].filter (fun i => decide (i ∉ exBatch.students)) ∧
      bOne.students.Nodup ∧
      (∀ i ∈ exBatch.students, bOne.students.count i = 1)) := by
  have hA := c7_add_students exDB none 5 [11, 99] exBatch (by decide) (by rfl) (by decide)
  have hB := c7_add_students exDB none 5 [10, 11] exBatch (by decide) (by rfl) (by decide)
  exact ⟨by decide, by rfl, by decide, by decide, hA.1 (by decide), by decide, by decide,
    by decide, hB.2.1 (by decide) (by decide) (by decide)⟩

/-- Witness for C6 at the sample database: two upserts at (monday, 3) on
batch 5. -/
theorem c6_timetable_upsert_witness :
    isAdmin exDB 1 = true ∧ ("math" : String) ≠ "" ∧ ("phys" : String) ≠ "" ∧
    parseDay (jsLower "monday") = some Day.monday ∧ (1 : Int) ≤ 3 ∧
    findBatch exDB 5 = some exBatch ∧ exBatch.teacher_id = 1 ∧
    (exBatch.timetable.get Day.monday).countP (fun e => decide (e.hour = 3)) ≤ 1 ∧
    ∃ db1 b1 db2 b2,
      upsertTimetableEntry exDB (some 1) 5 "monday" 3 "math" none none none = (200, db1) ∧
      findBatch db1 5 = some b1 ∧
      (b1.timetable.get Day.monday).countP (fun e => decide (e.hour = 3)) = 1 ∧
      List.Sorted byHour (b1.timetable.get Day.monday) ∧
      upsertTimetableEntry db1 (some 1) 5 "monday" 3 "phys" none none none = (200, db2) ∧
      findBatch db2 5 = some b2 ∧
      (b2.timetable.get Day.monday).countP (fun e => decide (e.hour = 3)) = 1 ∧
      List.Sorted byHour (b2.timetable.get Day.monday) := by
  refine ⟨by decide, by decide, by decide, by rfl, by decide, by rfl, by decide, by decide, ?_⟩
  exact c6_timetable_upsert exDB 1 5 "monday" Day.monday 3 "math" "phys"
    none none none none none none exBatch (by decide) (by decide) (by decide)
    (by rfl) (by decide) (by rfl) (by decide) (by decide)

/-- Witness for C1 (amended): teacher 2 is a valid admin but does not own
batch 5 (owned by teacher 1); three representative mutations are refused
with 403 and no state change. -/
theorem c1_teacher_owns_batch_witness :
    isAdmin exDB 2 = true ∧ findBatch exDB 5 = some exBatch ∧
    exBatch.teacher_id ≠ 2 ∧
    updateBatch exDB (some 2) 5 none none = (403, exDB) ∧
    deleteBatch exDB (some 2) 5 = (403, exDB) ∧
    clearDayTimetable exDB (some 2) 5 "monday" = (403, exDB) := by
  have h := c1_teacher_owns_batch exDB 2 5 exBatch (by decide) (by rfl) (by decide)
  exact ⟨by decide, by rfl, by decide, h.1 none none, h.2.1,
    h.2.2.2.2.2.2.2.2.2.2.1 "monday" Day.monday (by rfl)⟩

end Clr
